import Mathlib

/-!
Verification of the point-in-time history lookup of `auditlog/history.py`
(`HistoricalStateLookupManagerMixin.get_object_state_at_timestamp` and
`get_field_state_at_timestamp`) against its specification.

The embedding models:
  * a snapshot record (`LogEntry`) with `id`, `timestamp` and `serialized_data`;
  * Python values stored in a `fields` dict as the inductive `Value`
    (`Value.null` is Python `None`);
  * `serialized_data` as either a non-dict payload (Python `None` or any
    malformed value, which `isinstance(log.serialized_data, dict)` rejects) or
    a dict that optionally carries a `"fields"` sub-dict;
  * the Django queryset pipeline
    `filter(timestamp__lte=timestamp).order_by("-timestamp").first()` as
    filter, stable merge sort by descending timestamp, `head?`.

Python dicts are association lists; `field_name in fields` is
`(fields.lookup field_name).isSome` and `fields.get(field_name)` is
`List.lookup`.  The truthiness collapse `.copy() or None` is an explicit
emptiness test.
-/

namespace Auditlog

/-- A Python value stored in a snapshot's `fields` mapping.  `Value.null`
is Python `None`; the other constructors are representative serializable
values. -/
inductive Value where
  | null : Value
  | str (s : String) : Value
  | int (n : Int) : Value
  | bool (b : Bool) : Value
deriving DecidableEq

/-- A Python dict from field name to value, as an association list. -/
abbrev Fields := List (String × Value)

/-- The `serialized_data` payload of a log entry.  `nonDict` covers Python
`None` and any malformed (non-dict) payload, exactly what
`isinstance(log.serialized_data, dict)` rejects; `dict fields` is a dict
whose optional `"fields"` key holds the mapping `fields`. -/
inductive SerializedData where
  | nonDict : SerializedData
  | dict (fields : Option Fields) : SerializedData
deriving DecidableEq

/-- A snapshot record of the external log store (`LogEntry` model). -/
structure LogEntry where
  id : Nat
  timestamp : Int
  serialized_data : SerializedData
deriving DecidableEq

/-- Result dataclass `HistoricalObjectState` from `auditlog/history.py`. -/
structure HistoricalObjectState where
  log_found : Bool
  serialized_fields : Option Fields
  timestamp : Option Int
  log_entry_id : Option Nat
deriving DecidableEq

/-- Result dataclass `HistoricalFieldState` from `auditlog/history.py`.
`value` is `Optional[Any] = None` in Python, so its default and its
"absent" form are Python `None`, i.e. `Value.null`. -/
structure HistoricalFieldState where
  log_found : Bool
  field_found : Bool
  field_name : String
  value : Value
  timestamp : Option Int
  log_entry_id : Option Nat
deriving DecidableEq

/-- Descending-timestamp comparison used to model `order_by("-timestamp")`. -/
def descRel (a b : LogEntry) : Prop := b.timestamp ≤ a.timestamp

instance : DecidableRel descRel := fun a b => by
  unfold descRel; infer_instance

instance : IsTotal LogEntry descRel :=
  ⟨fun a b => le_total b.timestamp a.timestamp⟩

instance : IsTrans LogEntry descRel :=
  ⟨fun _ _ _ hab hbc => le_trans hbc hab⟩

/-- The queryset pipeline of `get_object_state_at_timestamp`:
`get_for_object(instance).filter(timestamp__lte=timestamp)
.order_by("-timestamp").first()`.  The entity's log records are the list
`log`; `first()` on an empty queryset is Python `None`, i.e. `none`.
A stable sort models the storage-order-dependent tie behaviour. -/
def selectLog (log : List LogEntry) (T : Int) : Option LogEntry :=
  ((log.filter (fun e => e.timestamp ≤ T)).insertionSort descRel).head?

/-- Decoding of the selected entry's payload:
`serialized_fields = log.serialized_data.get("fields", {}).copy() or None`
when the payload is a dict, else `None`.  The `or None` collapses a falsy
(empty) dict to `None`. -/
def decodeFields : SerializedData → Option Fields
  | .nonDict => none
  | .dict fields =>
    let f := fields.getD []
    if f.isEmpty then none else some f

/-- `HistoricalStateLookupManagerMixin.get_object_state_at_timestamp`. -/
def get_object_state_at_timestamp (log : List LogEntry) (T : Int) :
    HistoricalObjectState :=
  match selectLog log T with
  | none =>
    { log_found := false, serialized_fields := none,
      timestamp := none, log_entry_id := none }
  | some e =>
    { log_found := true, serialized_fields := decodeFields e.serialized_data,
      timestamp := some e.timestamp, log_entry_id := some e.id }

/-- `HistoricalStateLookupManagerMixin.get_field_state_at_timestamp`. -/
def get_field_state_at_timestamp (log : List LogEntry) (field_name : String)
    (T : Int) : HistoricalFieldState :=
  let object_state := get_object_state_at_timestamp log T
  if object_state.log_found = false then
    { log_found := false, field_found := false, field_name := field_name,
      value := Value.null, timestamp := none, log_entry_id := none }
  else
    match object_state.serialized_fields with
    | none =>
      { log_found := true, field_found := false, field_name := field_name,
        value := Value.null, timestamp := object_state.timestamp,
        log_entry_id := object_state.log_entry_id }
    | some fields =>
      match fields.lookup field_name with
      | none =>
        { log_found := true, field_found := false, field_name := field_name,
          value := Value.null, timestamp := object_state.timestamp,
          log_entry_id := object_state.log_entry_id }
      | some v =>
        { log_found := true, field_found := true, field_name := field_name,
          value := v, timestamp := object_state.timestamp,
          log_entry_id := object_state.log_entry_id }

/-- A selected log entry belongs to the entity's log and satisfies the
`timestamp__lte` filter. -/
theorem selectLog_mem_le {log : List LogEntry} {T : Int} {e : LogEntry}
    (h : selectLog log T = some e) : e ∈ log ∧ e.timestamp ≤ T := by
  unfold selectLog at h
  have hmem : e ∈ (log.filter (fun x => x.timestamp ≤ T)).insertionSort descRel :=
    List.mem_of_mem_head? h
  rw [List.mem_insertionSort, List.mem_filter] at hmem
  exact ⟨hmem.1, by simpa using hmem.2⟩

/-- The selected log entry has the maximal timestamp among entries at or
before the query timestamp: it is the one `order_by("-timestamp").first()`
puts first. -/
theorem selectLog_maximal {log : List LogEntry} {T : Int} {e : LogEntry}
    (h : selectLog log T = some e) :
    ∀ e' ∈ log, e'.timestamp ≤ T → e'.timestamp ≤ e.timestamp := by
  intro e' hmem hle
  unfold selectLog at h
  obtain ⟨ys, hys⟩ := List.head?_eq_some_iff.mp h
  have hs := List.sorted_insertionSort descRel (log.filter (fun x => x.timestamp ≤ T))
  have hmem2 : e' ∈ (log.filter (fun x => x.timestamp ≤ T)).insertionSort descRel := by
    rw [List.mem_insertionSort, List.mem_filter]
    exact ⟨hmem, by simpa⟩
  rw [hys] at hs hmem2
  rcases List.mem_cons.mp hmem2 with heq | htail
  · rw [heq]
  · exact List.rel_of_sorted_cons hs e' htail

/-- `first()` returns `None` exactly when no record passes the filter. -/
theorem selectLog_eq_none_iff {log : List LogEntry} {T : Int} :
    selectLog log T = none ↔ ∀ e ∈ log, ¬ e.timestamp ≤ T := by
  unfold selectLog
  rw [List.head?_eq_none_iff]
  constructor
  · intro h e hmem hle
    have hm : e ∈ (log.filter (fun x => x.timestamp ≤ T)).insertionSort descRel := by
      rw [List.mem_insertionSort, List.mem_filter]
      exact ⟨hmem, by simpa⟩
    rw [h] at hm
    exact absurd hm (List.not_mem_nil e)
  · intro h
    have hf : log.filter (fun x => x.timestamp ≤ T) = [] := by
      rw [List.filter_eq_nil_iff]
      intro a ha
      simpa using h a ha
    rw [hf]
    rfl

/-- If some record passes the filter, `first()` returns a record. -/
theorem selectLog_isSome {log : List LogEntry} {T : Int} {e0 : LogEntry}
    (hmem : e0 ∈ log) (hle : e0.timestamp ≤ T) :
    ∃ e, selectLog log T = some e := by
  cases h : selectLog log T with
  | none => exact absurd hle (selectLog_eq_none_iff.mp h e0 hmem)
  | some e => exact ⟨e, rfl⟩

/-- Unfolding of the object-level lookup on the found branch. -/
theorem get_object_state_of_selectLog_some {log : List LogEntry} {T : Int}
    {e : LogEntry} (h : selectLog log T = some e) :
    get_object_state_at_timestamp log T =
      { log_found := true, serialized_fields := decodeFields e.serialized_data,
        timestamp := some e.timestamp, log_entry_id := some e.id } := by
  unfold get_object_state_at_timestamp
  rw [h]

/-- The object-level lookup reports `log_found` exactly when the query
pipeline selected a record. -/
theorem log_found_iff_selectLog {log : List LogEntry} {T : Int} :
    (get_object_state_at_timestamp log T).log_found = true ↔
      ∃ e, selectLog log T = some e := by
  unfold get_object_state_at_timestamp
  cases h : selectLog log T <;> simp

/-- Spec scenario 2: snapshots at t=1 and t=5, query T=3 selects t=1. -/
example :
    get_object_state_at_timestamp
      [⟨10, 1, .dict (some [("name", .str "a")])⟩,
       ⟨11, 5, .dict (some [("name", .str "b")])⟩] 3 =
    { log_found := true, serialized_fields := some [("name", .str "a")],
      timestamp := some 1, log_entry_id := some 10 } := by decide

/-- Spec scenario 5: field query for `"name"` at T=10 finds `"b"`. -/
example :
    get_field_state_at_timestamp
      [⟨10, 1, .dict (some [("name", .str "a")])⟩,
       ⟨11, 5, .dict (some [("name", .str "b")])⟩] "name" 10 =
    { log_found := true, field_found := true, field_name := "name",
      value := .str "b", timestamp := some 5, log_entry_id := some 11 } := by
  decide

/-- C1: for every entity with at least one snapshot record whose timestamp
is at most the target timestamp `T`, `get_object_state_at_timestamp`
returns `log_found = true`, a `timestamp` equal to the maximum record
timestamp ≤ T, and a `log_entry_id` identifying that exact selected
record. -/
theorem object_state_selects_latest_snapshot (log : List LogEntry) (T : Int)
    (e0 : LogEntry) (hmem : e0 ∈ log) (hle : e0.timestamp ≤ T) :
    ∃ e ∈ log, e.timestamp ≤ T ∧
      (∀ e' ∈ log, e'.timestamp ≤ T → e'.timestamp ≤ e.timestamp) ∧
      (get_object_state_at_timestamp log T).log_found = true ∧
      (get_object_state_at_timestamp log T).timestamp = some e.timestamp ∧
      (get_object_state_at_timestamp log T).log_entry_id = some e.id := by
  obtain ⟨e, he⟩ := selectLog_isSome hmem hle
  obtain ⟨hm, hl⟩ := selectLog_mem_le he
  refine ⟨e, hm, hl, selectLog_maximal he, ?_, ?_, ?_⟩ <;>
    rw [get_object_state_of_selectLog_some he]

/-- Witness for C1 on a concrete two-snapshot log queried at `T = 3`. -/
theorem object_state_selects_latest_snapshot_witness :
    ∃ e ∈ [(⟨10, 1, SerializedData.nonDict⟩ : LogEntry),
           ⟨11, 5, SerializedData.nonDict⟩], e.timestamp ≤ (3 : Int) ∧
      (∀ e' ∈ [(⟨10, 1, SerializedData.nonDict⟩ : LogEntry),
               ⟨11, 5, SerializedData.nonDict⟩],
        e'.timestamp ≤ (3 : Int) → e'.timestamp ≤ e.timestamp) ∧
      (get_object_state_at_timestamp
        [⟨10, 1, SerializedData.nonDict⟩, ⟨11, 5, SerializedData.nonDict⟩]
        3).log_found = true ∧
      (get_object_state_at_timestamp
        [⟨10, 1, SerializedData.nonDict⟩, ⟨11, 5, SerializedData.nonDict⟩]
        3).timestamp = some e.timestamp ∧
      (get_object_state_at_timestamp
        [⟨10, 1, SerializedData.nonDict⟩, ⟨11, 5, SerializedData.nonDict⟩]
        3).log_entry_id = some e.id :=
  object_state_selects_latest_snapshot
    [⟨10, 1, SerializedData.nonDict⟩, ⟨11, 5, SerializedData.nonDict⟩] 3
    ⟨10, 1, SerializedData.nonDict⟩ (by decide) (by decide)

/-- C2: for every entity with zero snapshot records at or before `T`,
`get_object_state_at_timestamp` returns `log_found = false` with
`serialized_fields`, `timestamp` and `log_entry_id` all `None`. -/
theorem object_state_no_snapshot (log : List LogEntry) (T : Int)
    (h : ∀ e ∈ log, ¬ e.timestamp ≤ T) :
    get_object_state_at_timestamp log T =
      { log_found := false, serialized_fields := none,
        timestamp := none, log_entry_id := none } := by
  unfold get_object_state_at_timestamp
  rw [selectLog_eq_none_iff.mpr h]

/-- Witness for C2: a log whose only snapshot is after the query time. -/
theorem object_state_no_snapshot_witness :
    (∀ e ∈ [(⟨10, 9, SerializedData.nonDict⟩ : LogEntry)],
       ¬ e.timestamp ≤ (3 : Int)) ∧
    get_object_state_at_timestamp [⟨10, 9, SerializedData.nonDict⟩] 3 =
      { log_found := false, serialized_fields := none,
        timestamp := none, log_entry_id := none } :=
  ⟨by decide,
   object_state_no_snapshot [⟨10, 9, SerializedData.nonDict⟩] 3 (by decide)⟩

/-- C3: when the selected snapshot's `serialized_data` is absent or
malformed (not a dict) or is a dict lacking a `"fields"` key, the lookup
still completes (the embedding is a total function returning a plain
result, never an error value) with `log_found = true` and
`serialized_fields` absent. -/
theorem object_state_tolerates_malformed_data (log : List LogEntry) (T : Int)
    (e : LogEntry) (h : selectLog log T = some e)
    (hm : e.serialized_data = SerializedData.nonDict ∨
          e.serialized_data = SerializedData.dict none) :
    (get_object_state_at_timestamp log T).log_found = true ∧
    (get_object_state_at_timestamp log T).serialized_fields = none := by
  rw [get_object_state_of_selectLog_some h]
  rcases hm with h1 | h1 <;> simp [h1, decodeFields]

/-- Witness for C3 on a snapshot with a non-dict payload. -/
theorem object_state_tolerates_malformed_data_witness :
    selectLog [(⟨10, 1, SerializedData.nonDict⟩ : LogEntry)] 3 =
      some ⟨10, 1, SerializedData.nonDict⟩ ∧
    (get_object_state_at_timestamp
      [⟨10, 1, SerializedData.nonDict⟩] 3).log_found = true ∧
    (get_object_state_at_timestamp
      [⟨10, 1, SerializedData.nonDict⟩] 3).serialized_fields = none :=
  ⟨by decide,
   object_state_tolerates_malformed_data [⟨10, 1, SerializedData.nonDict⟩] 3
     ⟨10, 1, SerializedData.nonDict⟩ (by decide) (Or.inl rfl)⟩

/-- C4: when the selected snapshot's `fields` mapping is present but
empty, the object-level result reports `serialized_fields` as absent
(`None`), not an empty mapping, and any field lookup yields
`field_found = false`. -/
theorem empty_fields_reported_absent (log : List LogEntry) (T : Int)
    (e : LogEntry) (f : String) (h : selectLog log T = some e)
    (hm : e.serialized_data = SerializedData.dict (some [])) :
    (get_object_state_at_timestamp log T).serialized_fields = none ∧
    (get_field_state_at_timestamp log f T).field_found = false := by
  have hobj := get_object_state_of_selectLog_some h
  constructor
  · rw [hobj]
    simp [hm, decodeFields]
  · simp [get_field_state_at_timestamp, hobj, hm, decodeFields]

/-- Witness for C4 on a snapshot whose `fields` dict is empty. -/
theorem empty_fields_reported_absent_witness :
    selectLog [(⟨10, 1, SerializedData.dict (some [])⟩ : LogEntry)] 3 =
      some ⟨10, 1, SerializedData.dict (some [])⟩ ∧
    (get_object_state_at_timestamp
      [⟨10, 1, SerializedData.dict (some [])⟩] 3).serialized_fields = none ∧
    (get_field_state_at_timestamp
      [⟨10, 1, SerializedData.dict (some [])⟩] "name" 3).field_found = false :=
  ⟨by decide,
   empty_fields_reported_absent [⟨10, 1, SerializedData.dict (some [])⟩] 3
     ⟨10, 1, SerializedData.dict (some [])⟩ "name" (by decide) rfl⟩

/-- C5: when the object-level lookup finds a log, the field-level lookup
returns `field_found = false` exactly when `serialized_fields` is absent
or lacks the requested key, and otherwise `field_found = true` with
`value` equal to the mapping's value for the key. -/
theorem field_state_projection (log : List LogEntry) (f : String) (T : Int)
    (h : (get_object_state_at_timestamp log T).log_found = true) :
    ((get_object_state_at_timestamp log T).serialized_fields = none →
      (get_field_state_at_timestamp log f T).field_found = false) ∧
    (∀ m, (get_object_state_at_timestamp log T).serialized_fields = some m →
      m.lookup f = none →
      (get_field_state_at_timestamp log f T).field_found = false) ∧
    (∀ m v, (get_object_state_at_timestamp log T).serialized_fields = some m →
      m.lookup f = some v →
      (get_field_state_at_timestamp log f T).field_found = true ∧
      (get_field_state_at_timestamp log f T).value = v) := by
  refine ⟨?_, ?_, ?_⟩
  · intro hsf
    simp [get_field_state_at_timestamp, h, hsf]
  · intro m hsf hl
    simp [get_field_state_at_timestamp, h, hsf, hl]
  · intro m v hsf hl
    constructor <;> simp [get_field_state_at_timestamp, h, hsf, hl]

/-- Witness for C5 on a one-snapshot log holding `name = "a"`. -/
theorem field_state_projection_witness :
    (get_object_state_at_timestamp
      [(⟨10, 1, SerializedData.dict (some [("name", Value.str "a")])⟩ :
        LogEntry)] 3).log_found = true ∧
    (((get_object_state_at_timestamp
        [(⟨10, 1, SerializedData.dict (some [("name", Value.str "a")])⟩ :
          LogEntry)] 3).serialized_fields = none →
      (get_field_state_at_timestamp
        [⟨10, 1, SerializedData.dict (some [("name", Value.str "a")])⟩]
        "name" 3).field_found = false) ∧
    (∀ m, (get_object_state_at_timestamp
        [(⟨10, 1, SerializedData.dict (some [("name", Value.str "a")])⟩ :
          LogEntry)] 3).serialized_fields = some m →
      m.lookup "name" = none →
      (get_field_state_at_timestamp
        [⟨10, 1, SerializedData.dict (some [("name", Value.str "a")])⟩]
        "name" 3).field_found = false) ∧
    (∀ m v, (get_object_state_at_timestamp
        [(⟨10, 1, SerializedData.dict (some [("name", Value.str "a")])⟩ :
          LogEntry)] 3).serialized_fields = some m →
      m.lookup "name" = some v →
      (get_field_state_at_timestamp
        [⟨10, 1, SerializedData.dict (some [("name", Value.str "a")])⟩]
        "name" 3).field_found = true ∧
      (get_field_state_at_timestamp
        [⟨10, 1, SerializedData.dict (some [("name", Value.str "a")])⟩]
        "name" 3).value = v)) :=
  ⟨by decide,
   field_state_projection
     [⟨10, 1, SerializedData.dict (some [("name", Value.str "a")])⟩]
     "name" 3 (by decide)⟩

/-- C6: when a log is found, the field-level result carries the same
`timestamp` and `log_entry_id` as the object-level result, so the two
operations agree on which snapshot is current as of `T`. -/
theorem field_state_same_snapshot (log : List LogEntry) (f : String) (T : Int)
    (h : (get_object_state_at_timestamp log T).log_found = true) :
    (get_field_state_at_timestamp log f T).log_found = true ∧
    (get_field_state_at_timestamp log f T).timestamp =
      (get_object_state_at_timestamp log T).timestamp ∧
    (get_field_state_at_timestamp log f T).log_entry_id =
      (get_object_state_at_timestamp log T).log_entry_id := by
  cases hsf : (get_object_state_at_timestamp log T).serialized_fields with
  | none => simp [get_field_state_at_timestamp, h, hsf]
  | some m =>
    cases hl : m.lookup f <;>
      simp [get_field_state_at_timestamp, h, hsf, hl]

/-- Witness for C6 on a concrete one-snapshot log. -/
theorem field_state_same_snapshot_witness :
    (get_object_state_at_timestamp
      [(⟨10, 1, SerializedData.dict (some [("name", Value.str "a")])⟩ :
        LogEntry)] 3).log_found = true ∧
    ((get_field_state_at_timestamp
        [(⟨10, 1, SerializedData.dict (some [("name", Value.str "a")])⟩ :
          LogEntry)] "color" 3).log_found = true ∧
     (get_field_state_at_timestamp
        [(⟨10, 1, SerializedData.dict (some [("name", Value.str "a")])⟩ :
          LogEntry)] "color" 3).timestamp =
       (get_object_state_at_timestamp
        [(⟨10, 1, SerializedData.dict (some [("name", Value.str "a")])⟩ :
          LogEntry)] 3).timestamp ∧
     (get_field_state_at_timestamp
        [(⟨10, 1, SerializedData.dict (some [("name", Value.str "a")])⟩ :
          LogEntry)] "color" 3).log_entry_id =
       (get_object_state_at_timestamp
        [(⟨10, 1, SerializedData.dict (some [("name", Value.str "a")])⟩ :
          LogEntry)] 3).log_entry_id) :=
  ⟨by decide,
   field_state_same_snapshot
     [⟨10, 1, SerializedData.dict (some [("name", Value.str "a")])⟩]
     "color" 3 (by decide)⟩

/-- C7: every field-state result satisfies the invariants: `field_found`
implies `log_found`; if `log_found` is false then `field_found` is false
and `value`, `timestamp`, `log_entry_id` are all absent (Python `None`);
`field_name` always equals the requested name. -/
theorem field_state_invariants (log : List LogEntry) (f : String) (T : Int) :
    ((get_field_state_at_timestamp log f T).field_found = true →
      (get_field_state_at_timestamp log f T).log_found = true) ∧
    ((get_field_state_at_timestamp log f T).log_found = false →
      (get_field_state_at_timestamp log f T).field_found = false ∧
      (get_field_state_at_timestamp log f T).value = Value.null ∧
      (get_field_state_at_timestamp log f T).timestamp = none ∧
      (get_field_state_at_timestamp log f T).log_entry_id = none) ∧
    (get_field_state_at_timestamp log f T).field_name = f := by
  cases hlf : (get_object_state_at_timestamp log T).log_found with
  | false => simp [get_field_state_at_timestamp, hlf]
  | true =>
    cases hsf : (get_object_state_at_timestamp log T).serialized_fields with
    | none => simp [get_field_state_at_timestamp, hlf, hsf]
    | some m =>
      cases hl : m.lookup f <;>
        simp [get_field_state_at_timestamp, hlf, hsf, hl]

/-- Witness for C7, instantiating the invariants on an empty log. -/
theorem field_state_invariants_witness :
    ((get_field_state_at_timestamp [] "name" 3).field_found = true →
      (get_field_state_at_timestamp [] "name" 3).log_found = true) ∧
    ((get_field_state_at_timestamp [] "name" 3).log_found = false →
      (get_field_state_at_timestamp [] "name" 3).field_found = false ∧
      (get_field_state_at_timestamp [] "name" 3).value = Value.null ∧
      (get_field_state_at_timestamp [] "name" 3).timestamp = none ∧
      (get_field_state_at_timestamp [] "name" 3).log_entry_id = none) ∧
    (get_field_state_at_timestamp [] "name" 3).field_name = "name" :=
  field_state_invariants [] "name" 3

/-- C8: selection is monotone in the query timestamp: for `T1 < T2`, when
both queries find a snapshot, the snapshot selected for `T2` has a
timestamp at least that of the one selected for `T1`. -/
theorem selection_monotone (log : List LogEntry) (T1 T2 : Int) (hT : T1 < T2)
    (h1 : (get_object_state_at_timestamp log T1).log_found = true)
    (h2 : (get_object_state_at_timestamp log T2).log_found = true) :
    ∃ t1 t2, (get_object_state_at_timestamp log T1).timestamp = some t1 ∧
      (get_object_state_at_timestamp log T2).timestamp = some t2 ∧
      t1 ≤ t2 := by
  obtain ⟨e1, he1⟩ := log_found_iff_selectLog.mp h1
  obtain ⟨e2, he2⟩ := log_found_iff_selectLog.mp h2
  obtain ⟨hm1, hl1⟩ := selectLog_mem_le he1
  refine ⟨e1.timestamp, e2.timestamp, ?_, ?_, ?_⟩
  · rw [get_object_state_of_selectLog_some he1]
  · rw [get_object_state_of_selectLog_some he2]
  · exact selectLog_maximal he2 e1 hm1 (le_trans hl1 hT.le)

/-- Witness for C8 at `T1 = 2`, `T2 = 7` over two snapshots. -/
theorem selection_monotone_witness :
    ((2 : Int) < 7) ∧
    ∃ t1 t2,
      (get_object_state_at_timestamp
        [(⟨10, 1, SerializedData.nonDict⟩ : LogEntry),
         ⟨11, 5, SerializedData.nonDict⟩] 2).timestamp = some t1 ∧
      (get_object_state_at_timestamp
        [(⟨10, 1, SerializedData.nonDict⟩ : LogEntry),
         ⟨11, 5, SerializedData.nonDict⟩] 7).timestamp = some t2 ∧
      t1 ≤ t2 :=
  ⟨by decide,
   selection_monotone
     [⟨10, 1, SerializedData.nonDict⟩, ⟨11, 5, SerializedData.nonDict⟩]
     2 7 (by decide) (by decide) (by decide)⟩

/-- C9: both lookups are deterministic pure functions of the log contents
and the query arguments: identical arguments against an unchanged log
yield identical results. -/
theorem lookups_deterministic (log log' : List LogEntry) (f f' : String)
    (T T' : Int) (hlog : log = log') (hf : f = f') (hT : T = T') :
    get_object_state_at_timestamp log T =
      get_object_state_at_timestamp log' T' ∧
    get_field_state_at_timestamp log f T =
      get_field_state_at_timestamp log' f' T' := by
  subst hlog hf hT
  exact ⟨rfl, rfl⟩

/-- Witness for C9 on a concrete repeated call. -/
theorem lookups_deterministic_witness :
    get_object_state_at_timestamp
        [(⟨10, 1, SerializedData.nonDict⟩ : LogEntry)] 3 =
      get_object_state_at_timestamp
        [(⟨10, 1, SerializedData.nonDict⟩ : LogEntry)] 3 ∧
    get_field_state_at_timestamp
        [(⟨10, 1, SerializedData.nonDict⟩ : LogEntry)] "name" 3 =
      get_field_state_at_timestamp
        [(⟨10, 1, SerializedData.nonDict⟩ : LogEntry)] "name" 3 :=
  lookups_deterministic [⟨10, 1, SerializedData.nonDict⟩]
    [⟨10, 1, SerializedData.nonDict⟩] "name" "name" 3 3 rfl rfl rfl

/-- C10: when the selected snapshot's fields mapping stores Python `None`
(`Value.null`) under the requested name, the field lookup reports
`field_found = true` with `value = Value.null`: an absent-looking value in
the result does not imply the field was missing. -/
theorem null_value_still_found (log : List LogEntry) (T : Int) (e : LogEntry)
    (m : Fields) (f : String) (h : selectLog log T = some e)
    (hm : e.serialized_data = SerializedData.dict (some m))
    (hl : m.lookup f = some Value.null) :
    (get_field_state_at_timestamp log f T).field_found = true ∧
    (get_field_state_at_timestamp log f T).value = Value.null := by
  have hobj := get_object_state_of_selectLog_some h
  have hne : m.isEmpty = false := by
    cases m with
    | nil => simp [List.lookup] at hl
    | cons a l => rfl
  have hsf : (get_object_state_at_timestamp log T).serialized_fields =
      some m := by
    rw [hobj]
    simp [hm, decodeFields, hne]
  have hlf : (get_object_state_at_timestamp log T).log_found = true := by
    rw [hobj]
  constructor <;> simp [get_field_state_at_timestamp, hlf, hsf, hl]

/-- Witness for C10 on a snapshot storing `deleted_at = None`. -/
theorem null_value_still_found_witness :
    selectLog
        [(⟨10, 1, SerializedData.dict (some [("deleted_at", Value.null)])⟩ :
          LogEntry)] 3 =
      some ⟨10, 1, SerializedData.dict (some [("deleted_at", Value.null)])⟩ ∧
    (get_field_state_at_timestamp
        [(⟨10, 1, SerializedData.dict (some [("deleted_at", Value.null)])⟩ :
          LogEntry)] "deleted_at" 3).field_found = true ∧
    (get_field_state_at_timestamp
        [(⟨10, 1, SerializedData.dict (some [("deleted_at", Value.null)])⟩ :
          LogEntry)] "deleted_at" 3).value = Value.null :=
  ⟨by decide,
   null_value_still_found
     [⟨10, 1, SerializedData.dict (some [("deleted_at", Value.null)])⟩] 3
     ⟨10, 1, SerializedData.dict (some [("deleted_at", Value.null)])⟩
     [("deleted_at", Value.null)] "deleted_at" (by decide) rfl rfl⟩

end Auditlog
